import Mathlib

/-!
Shallow embedding of the Tuya BLE integration core
(`devices.py`, `switch.py`, `button.py`) and of the datapoint-store
collaborator it uses, together with proofs about the embedded code.

Datapoint values in the Python source are dynamically typed
(`bool | int | bytes`); we model the values that flow through the
embedded code with an explicit sum type and embed Python's truthiness
and coercion rules where the source relies on them.
-/

namespace TuyaBLE

/-- A Python value as stored in a datapoint: `bool`, non-negative `int`,
or `bytes` (a list of byte values). -/
inductive PyValue where
  | pbool (b : Bool)
  | pint (n : Nat)
  | pbytes (bs : List Nat)
deriving DecidableEq, Repr

/-- Python truthiness (`bool(value)`): `False`/`0`/`b""` are falsy. -/
def pyTruthy : PyValue → Bool
  | .pbool b => b
  | .pint n => n != 0
  | .pbytes bs => !bs.isEmpty

/-- Python `bytes(value)`: identity on bytes, `bytes(n)` is `n` zero
bytes, and `bool` behaves as the int 0 or 1.  (The embedded code only
reaches this on byte values; the other rows record CPython's result.) -/
def pyBytes : PyValue → List Nat
  | .pbytes bs => bs
  | .pint n => List.replicate n 0
  | .pbool b => List.replicate (if b then 1 else 0) 0

/-- Python `value == n` for an int literal `n`: `True == 1` holds,
bytes never equal an int. -/
def pyEqNat : PyValue → Nat → Bool
  | .pbool b, n => (if b then 1 else 0) == n
  | .pint k, n => k == n
  | .pbytes _, _ => false

/-- Python `int.from_bytes(bs, "big")`. -/
def intFromBytesBE (bs : List Nat) : Nat :=
  bs.foldl (fun acc b => acc * 256 + b) 0

/-- Modelled from the spec: datapoint type tags of the Datapoint Store
collaborator (`tuya_ble.TuyaBLEDataPointType`, not under `src/`); the
embedded code uses `DT_RAW`, `DT_BOOL` and `DT_BITMAP`. -/
inductive TuyaBLEDataPointType where
  | DT_RAW
  | DT_BOOL
  | DT_VALUE
  | DT_ENUM
  | DT_BITMAP
  | DT_STRING
deriving DecidableEq, Repr

/-- Modelled from the spec: a datapoint of the Datapoint Store
collaborator (`tuya_ble.TuyaBLEDataPoint`, not under `src/`), exposing
`{id, type, value}`. -/
structure TuyaBLEDataPoint where
  id : Nat
  type : TuyaBLEDataPointType
  value : PyValue
deriving DecidableEq, Repr

/-- Modelled from the spec: the per-device keyed store of current
datapoint values, addressable by integer id. -/
abbrev Datapoints := List TuyaBLEDataPoint

/-- A pending asynchronous write `Datapoint.set_value(newValue)`:
the addressed datapoint id and the value to be written. -/
abbrev PendingWrite := Nat × PyValue

/-- Modelled from the spec: store lookup by id (`datapoints[id]`,
`get(id) -> Datapoint?`). -/
def dps_get (store : Datapoints) (id : Nat) : Option TuyaBLEDataPoint :=
  store.find? (fun dp => dp.id == id)

/-- Modelled from the spec: `getOrCreate(id, defaultType, defaultValue)`
returns the existing datapoint with that id, or creates one with the
given default type and value; the returned store reflects the creation. -/
def dps_get_or_create (store : Datapoints) (id : Nat)
    (t : TuyaBLEDataPointType) (v : PyValue) :
    TuyaBLEDataPoint × Datapoints :=
  match dps_get store id with
  | some dp => (dp, store)
  | none => (⟨id, t, v⟩, store ++ [⟨id, t, v⟩])

/-- Modelled from the spec: the liveness predicate `hasId(id, type?)`:
a datapoint with the id is present and, when a type hint is given,
has that type. -/
def dps_has_id (store : Datapoints) (id : Nat)
    (t : Option TuyaBLEDataPointType) : Bool :=
  match dps_get store id with
  | some dp =>
    match t with
    | some tt => dp.type == tt
    | none => true
  | none => false

/-- Modelled from the spec: the store-side effect of a completed
asynchronous `Datapoint.setValue(newValue)`: the current value of the
addressed datapoint is replaced. -/
def apply_set_value (store : Datapoints) (id : Nat) (v : PyValue) :
    Datapoints :=
  store.map (fun dp => if dp.id == id then { dp with value := v } else dp)

/-- Embeds `devices.TuyaBLEFingerbotInfo`: datapoint ids of the fingerbot
sub-capability. -/
structure TuyaBLEFingerbotInfo where
  switch : Nat
  mode : Nat
  up_position : Nat
  down_position : Nat
  hold_time : Nat
  reverse_positions : Nat
  manual_control : Nat := 0
  program : Nat := 0

/-- Embeds `devices.TuyaBLEProductInfo`. `DEVICE_DEF_MANUFACTURER` lives in the
`const` module (not under `src/`); its exact string does not matter to
any claim. -/
structure TuyaBLEProductInfo where
  name : String
  manufacturer : String := "Tuya"
  fingerbot : Option TuyaBLEFingerbotInfo := none

/-- Modelled from the spec: the transport/device collaborator's identity
fields and its datapoint store (`tuya_ble.TuyaBLEDevice`, not under
`src/`); only the fields the embedded code reads. -/
structure TuyaBLEDevice where
  category : String
  product_id : String
  device_id : String := ""
  datapoints : Datapoints := []

/-- Association-list embedding of Python `dict.get` for string keys. -/
def lookupStr {α : Type} : List (String × α) → String → Option α
  | [], _ => none
  | (k, v) :: rest, key => if key == k then some v else lookupStr rest key

/-!  Connection coordinator (`devices.TuyaBLECoordinator`).

The mutable state is `_disconnected` plus the nullable timer token
`_unsub_disconnect`; `timer_scheduled` records whether a
`_set_disconnected` alarm is currently armed in the event loop (the
token is kept separate from the alarm because `_async_handle_connect`
cancels the alarm without clearing the token). -/

structure CoordState where
  disconnected : Bool := true
  unsub_disconnect : Bool := false
  timer_scheduled : Bool := false
deriving DecidableEq, Repr

/-- Embeds `TuyaBLECoordinator.__init__`: starts disconnected, no timer token. -/
def coordInit : CoordState := {}

/-- Embeds `TuyaBLECoordinator._set_disconnected`: the alarm callback —
sets `_disconnected` and clears the token (the alarm has fired, so it
is no longer scheduled). -/
def set_disconnected (s : CoordState) : CoordState :=
  { s with disconnected := true, unsub_disconnect := false,
           timer_scheduled := false }

/-- Embeds `TuyaBLECoordinator._async_handle_connect`: if a timer token is
present, invoke it (cancelling any armed alarm; the token itself is not
cleared in the source); then clear `_disconnected` if set. -/
def async_handle_connect (s : CoordState) : CoordState :=
  let s1 := if s.unsub_disconnect then { s with timer_scheduled := false } else s
  if s1.disconnected then { s1 with disconnected := false } else s1

/-- Embeds `TuyaBLECoordinator._async_handle_disconnect`: the source guards on
`_unsub_disconnect is None` and binds a local `delay`, but the
`async_call_later` call that would arm the `_set_disconnected` alarm is
commented out, so the handler changes no state. -/
def async_handle_disconnect (s : CoordState) : CoordState :=
  if s.unsub_disconnect then s else s

/-- Embeds `TuyaBLECoordinator._async_handle_update`: re-runs the connect
transition; the fingerbot manual-control event dispatch is a stub
(`...`) in the source and changes no coordinator state. -/
def async_handle_update (s : CoordState) : CoordState :=
  async_handle_connect s

/-- Embeds `TuyaBLECoordinator.connected` property. -/
def connected (s : CoordState) : Bool :=
  !s.disconnected

/-- Externally observable coordinator events: the three transport
callbacks plus the opportunity for an armed debounce alarm to fire
(the alarm only runs `_set_disconnected` if it is actually scheduled). -/
inductive CoordEvent where
  | connect
  | update
  | disconnect
  | timerFire
deriving DecidableEq, Repr

/-- One coordinator step per delivered event. -/
def coordStep (s : CoordState) : CoordEvent → CoordState
  | .connect => async_handle_connect s
  | .update => async_handle_update s
  | .disconnect => async_handle_disconnect s
  | .timerFire => if s.timer_scheduled then set_disconnected s else s

/-- A run of the coordinator over a sequence of events. -/
def coordRun (s : CoordState) : List CoordEvent → CoordState
  | [] => s
  | e :: es => coordRun (coordStep s e) es

/-!  Switch control surface (`switch.py`). -/

/-- A switch getter predicate: a function of the device's datapoint
store and the product info, returning Python `bool | None`. -/
abbrev SwitchGetter := Datapoints → TuyaBLEProductInfo → Option Bool

/-- A switch setter predicate: may issue one pending asynchronous
datapoint write as its effect. -/
abbrev SwitchSetter := Datapoints → TuyaBLEProductInfo → Bool → Option PendingWrite

/-- An availability predicate of a mapping. -/
abbrev AvailPredicate := Datapoints → TuyaBLEProductInfo → Bool

/-- The value held by an `is_available` field: `None`, the Python int
`0` (used by `button.TuyaBLELockMapping`), or an actual predicate.
Only the predicate is truthy under `if ... and mapping.is_available:`. -/
inductive AvailField where
  | nofn
  | zero
  | pred (f : AvailPredicate)

/-- Python truthiness of an `is_available` field. -/
def AvailField.truthy : AvailField → Bool
  | .pred _ => true
  | _ => false

/-- Evaluate an `is_available` field (only called when truthy). -/
def AvailField.eval : AvailField → Datapoints → TuyaBLEProductInfo → Bool
  | .pred f, store, product => f store product
  | _, _, _ => true

/-- Embeds `switch.TuyaBLESwitchMapping` (the fields the embedded logic reads;
`description` is represented by its entity key). -/
structure TuyaBLESwitchMapping where
  dp_id : Nat
  description_key : String
  force_add : Bool := true
  dp_type : Option TuyaBLEDataPointType := none
  bitmap_mask : Option (List Nat) := none
  is_available : AvailField := .nofn
  getter : Option SwitchGetter := none
  setter : Option SwitchSetter := none

/-- Python truthiness of `self._mapping.bitmap_mask`
(`None` and `b""` are falsy). -/
def maskTruthy : Option (List Nat) → Bool
  | some (_ :: _) => true
  | _ => false

/-- Embeds `switch.is_fingerbot_in_program_mode`. -/
def is_fingerbot_in_program_mode (store : Datapoints)
    (product : TuyaBLEProductInfo) : Bool :=
  match product.fingerbot with
  | some fb =>
    match dps_get store fb.mode with
    | some dp => pyEqNat dp.value 2
    | none => true
  | none => true

/-- Embeds `switch.is_fingerbot_in_switch_mode`. -/
def is_fingerbot_in_switch_mode (store : Datapoints)
    (product : TuyaBLEProductInfo) : Bool :=
  match product.fingerbot with
  | some fb =>
    match dps_get store fb.mode with
    | some dp => pyEqNat dp.value 1
    | none => true
  | none => true

/-- Embeds `switch.get_fingerbot_program_repeat_forever`: `None` unless the
product has a fingerbot block with a truthy (nonzero) program id, the
program datapoint exists and its value is `bytes`; then whether the
first two bytes, big-endian, are the sentinel `0xFFFF`. -/
def get_fingerbot_program_repeat_forever (store : Datapoints)
    (product : TuyaBLEProductInfo) : Option Bool :=
  match product.fingerbot with
  | some fb =>
    if fb.program != 0 then
      match dps_get store fb.program with
      | some dp =>
        match dp.value with
        | .pbytes bs => some (intFromBytesBE (bs.take 2) == 0xFFFF)
        | _ => none
      | none => none
    else none
  | none => none

/-- Embeds `int.to_bytes(0xFFFF if value else 1, 2, "big")`. -/
def repeatCountBytes (value : Bool) : List Nat :=
  if value then [0xFF, 0xFF] else [0, 1]

/-- Embeds `switch.set_fingerbot_program_repeat_forever`: issues one write of
the new repeat-count bytes prepended to the tail of the current value. -/
def set_fingerbot_program_repeat_forever (store : Datapoints)
    (product : TuyaBLEProductInfo) (value : Bool) : Option PendingWrite :=
  match product.fingerbot with
  | some fb =>
    if fb.program != 0 then
      match dps_get store fb.program with
      | some dp =>
        match dp.value with
        | .pbytes bs =>
          some (fb.program, .pbytes (repeatCountBytes value ++ bs.drop 2))
        | _ => none
      | none => none
    else none
  | none => none

/-- Embeds Python `zip(a, b, strict=True)` consumed by a constructor such
as `bytes(f(v, m) for (v, m) in zip(a, b, strict=True))`: the full
pairwise image, or a `ValueError` when the lengths differ. -/
def zipWithStrict (f : Nat → Nat → Nat) :
    List Nat → List Nat → Except Unit (List Nat)
  | [], [] => .ok []
  | a :: as, b :: bs =>
    match zipWithStrict f as bs with
    | .ok rest => .ok (f a b :: rest)
    | .error e => .error e
  | _, _ => .error ()

/-- Embeds the masked-byte scan of `TuyaBLESwitch.is_on`: iterate
`zip(value, mask, strict=True)` returning `True` at the first pair with
`(v & m) != 0`; `False` after an exhausted equal-length zip; a
`ValueError` when the length mismatch is reached before any hit. -/
def bitmapAnyMasked : List Nat → List Nat → Except Unit Bool
  | v :: vs, m :: ms =>
    if v &&& m != 0 then .ok true else bitmapAnyMasked vs ms
  | [], [] => .ok false
  | _, _ => .error ()

/-- Embeds `TuyaBLESwitch.is_on` as a function of the mapping, product
and datapoint store.  The result is the Python `bool | None` return
value, or a `ValueError` escaping the strict zip. -/
def is_on (m : TuyaBLESwitchMapping) (product : TuyaBLEProductInfo)
    (store : Datapoints) : Except Unit (Option Bool) :=
  match m.getter with
  | some g => .ok (g store product)
  | none =>
    match dps_get store m.dp_id with
    | some dp =>
      if (dp.type == .DT_RAW || dp.type == .DT_BITMAP)
          && maskTruthy m.bitmap_mask then
        match bitmapAnyMasked (pyBytes dp.value) (m.bitmap_mask.getD []) with
        | .ok b => .ok (some b)
        | .error e => .error e
      else .ok (some (pyTruthy dp.value))
    | none => .ok (some false)

/-- Embeds `TuyaBLESwitch.turn_on`: either the setter's effect, or the
bitmap `value | mask` write after fetch-or-create with default
`(DT_BITMAP, mask)`, or the boolean write of `True` after
fetch-or-create with default `(DT_BOOL, True)`.  Returns the store
after any creation together with the pending write, or the
`ValueError` raised by the strict zip. -/
def turn_on (m : TuyaBLESwitchMapping) (product : TuyaBLEProductInfo)
    (store : Datapoints) : Except Unit (Datapoints × Option PendingWrite) :=
  match m.setter with
  | some f => .ok (store, f store product true)
  | none =>
    if maskTruthy m.bitmap_mask then
      let mask := m.bitmap_mask.getD []
      let (dp, store1) :=
        dps_get_or_create store m.dp_id .DT_BITMAP (.pbytes mask)
      match zipWithStrict (fun v mm => v ||| mm) (pyBytes dp.value) mask with
      | .ok new_value => .ok (store1, some (m.dp_id, .pbytes new_value))
      | .error e => .error e
    else
      let (_, store1) := dps_get_or_create store m.dp_id .DT_BOOL (.pbool true)
      .ok (store1, some (m.dp_id, .pbool true))

/-- Embeds Python `v & ~m` on byte values: with arbitrary-precision
two's complement, `v & ~m` keeps exactly the bits of `v` not set in
`m`, which is `Nat.ldiff v m`. -/
def pyAndNot (v m : Nat) : Nat :=
  Nat.ldiff v m

/-- Embeds `TuyaBLESwitch.turn_off`: either the setter's effect, or the
bitmap `value & ~mask` write after fetch-or-create with default
`(DT_BITMAP, mask)`, or the boolean write of `False` after
fetch-or-create with default `(DT_BOOL, False)`. -/
def turn_off (m : TuyaBLESwitchMapping) (product : TuyaBLEProductInfo)
    (store : Datapoints) : Except Unit (Datapoints × Option PendingWrite) :=
  match m.setter with
  | some f => .ok (store, f store product false)
  | none =>
    if maskTruthy m.bitmap_mask then
      let mask := m.bitmap_mask.getD []
      let (dp, store1) :=
        dps_get_or_create store m.dp_id .DT_BITMAP (.pbytes mask)
      match zipWithStrict (fun v mm => pyAndNot v mm) (pyBytes dp.value) mask with
      | .ok new_value => .ok (store1, some (m.dp_id, .pbytes new_value))
      | .error e => .error e
    else
      let (_, store1) := dps_get_or_create store m.dp_id .DT_BOOL (.pbool false)
      .ok (store1, some (m.dp_id, .pbool false))

/-- Embeds `TuyaBLESwitch.available`: the coordinator's `connected`
gated by a truthy availability field of the mapping. -/
def switch_available (s : CoordState) (m : TuyaBLESwitchMapping)
    (product : TuyaBLEProductInfo) (store : Datapoints) : Bool :=
  let result := connected s
  if result && m.is_available.truthy then m.is_available.eval store product
  else result

/-- Embeds `switch.TuyaBLECategorySwitchMapping`. -/
structure TuyaBLECategorySwitchMapping where
  products : Option (List (String × List TuyaBLESwitchMapping)) := none
  mapping : Option (List TuyaBLESwitchMapping) := none

/-- Embeds `switch.TuyaBLEFingerbotSwitchMapping` at a datapoint id:
entity key `switch`, availability gated on switch mode. -/
def fingerbotSwitchMapping (dp : Nat) : TuyaBLESwitchMapping :=
  { dp_id := dp, description_key := "switch",
    is_available := .pred is_fingerbot_in_switch_mode }

/-- Embeds `switch.TuyaBLEReversePositionsMapping` at a datapoint id:
entity key `reverse_positions`, availability gated on switch mode. -/
def reversePositionsMapping (dp : Nat) : TuyaBLESwitchMapping :=
  { dp_id := dp, description_key := "reverse_positions",
    is_available := .pred is_fingerbot_in_switch_mode }

/-- Embeds the `mapping` entries shared by the smart-lock product ids in
category `ms`. -/
def lockMotorStateMapping : List TuyaBLESwitchMapping :=
  [{ dp_id := 47, description_key := "lock_motor_state" }]

/-- Embeds the `mapping` entries shared by the CubeTouch product ids. -/
def cubeTouchSwitchMappings : List TuyaBLESwitchMapping :=
  [fingerbotSwitchMapping 1, reversePositionsMapping 4]

/-- Embeds the `mapping` entries shared by the Fingerbot product ids. -/
def fingerbotSwitchMappings : List TuyaBLESwitchMapping :=
  [fingerbotSwitchMapping 2, reversePositionsMapping 11]

/-- Embeds the module-level `switch.mapping` table. -/
def switchMappingTable : List (String × TuyaBLECategorySwitchMapping) :=
  [ ("ms",
     { products := some
         [ ("ludzroix", lockMotorStateMapping),
           ("isk2p555", lockMotorStateMapping) ] }),
    ("szjqr",
     { products := some
         [ ("3yqdo5yt", cubeTouchSwitchMappings),
           ("xhf790if", cubeTouchSwitchMappings),
           ("ltak7e1p", fingerbotSwitchMappings),
           ("y6kttvd6", fingerbotSwitchMappings),
           ("yrnk7mnn", fingerbotSwitchMappings),
           ("nvr2rocq", fingerbotSwitchMappings),
           ("bnt7wajf", fingerbotSwitchMappings),
           ("rvdceqjh", fingerbotSwitchMappings),
           ("5xhbk964", fingerbotSwitchMappings) ] }),
    ("jtmspro",
     { products := some
         [ ("rlyxv7pe",
            [{ dp_id := 78, description_key := "special_control" }]) ] }) ]

/-- Embeds `switch.get_mapping_by_device`. -/
def get_switch_mapping_by_device (device : TuyaBLEDevice) :
    List TuyaBLESwitchMapping :=
  match lookupStr switchMappingTable device.category with
  | some category =>
    match category.products with
    | some products =>
      match lookupStr products device.product_id with
      | some product_mapping => product_mapping
      | none =>
        match category.mapping with
        | some m => m
        | none => []
    | none => []
  | none => []

/-!  Button control surface (`button.py`). -/

/-- Embeds `button.TuyaBLEButtonMapping` (the fields the embedded logic
reads). -/
structure TuyaBLEButtonMapping where
  dp_id : Nat
  description_key : String
  force_add : Bool := true
  dp_type : Option TuyaBLEDataPointType := none
  is_available : AvailField := .nofn

/-- Embeds `button.TuyaBLELockMapping` at a datapoint id and entity key:
its dataclass default sets `is_available = 0` (a falsy non-predicate). -/
def lockButtonMapping (dp : Nat) (key : String) : TuyaBLEButtonMapping :=
  { dp_id := dp, description_key := key, is_available := .zero }

/-- Embeds `button.is_fingerbot_in_push_mode`. -/
def is_fingerbot_in_push_mode (store : Datapoints)
    (product : TuyaBLEProductInfo) : Bool :=
  match product.fingerbot with
  | some fb =>
    match dps_get store fb.mode with
    | some dp => pyEqNat dp.value 0
    | none => true
  | none => true

/-- Embeds `button.TuyaBLECategoryButtonMapping`. -/
structure TuyaBLECategoryButtonMapping where
  products : Option (List (String × List TuyaBLEButtonMapping)) := none
  mapping : Option (List TuyaBLEButtonMapping) := none

/-- Embeds the module-level `button.mapping` table (the `szjqr` entry is
commented out in the source). -/
def buttonMappingTable : List (String × TuyaBLECategoryButtonMapping) :=
  [ ("jtmspro",
     { products := some
         [ ("rlyxv7pe",
            [ lockButtonMapping 46 "manual_lock",
              lockButtonMapping 6 "manual_unlock" ]) ] }) ]

/-- Embeds `button.get_mapping_by_device`. -/
def get_button_mapping_by_device (device : TuyaBLEDevice) :
    List TuyaBLEButtonMapping :=
  match lookupStr buttonMappingTable device.category with
  | some category =>
    match category.products with
    | some products =>
      match lookupStr products device.product_id with
      | some product_mapping => product_mapping
      | none =>
        match category.mapping with
        | some m => m
        | none => []
    | none => []
  | none => []

/-- Embeds `TuyaBLEButton.press`: fetch-or-create the addressed boolean
datapoint with default `False`, then issue an asynchronous write of the
negation of its current (fresh) value. -/
def press (m : TuyaBLEButtonMapping) (store : Datapoints) :
    Datapoints × Option PendingWrite :=
  let (dp, store1) := dps_get_or_create store m.dp_id .DT_BOOL (.pbool false)
  (store1, some (m.dp_id, .pbool (!(pyTruthy dp.value))))

/-- Embeds `TuyaBLEButton.available` (same shape as the switch's). -/
def button_available (s : CoordState) (m : TuyaBLEButtonMapping)
    (product : TuyaBLEProductInfo) (store : Datapoints) : Bool :=
  let result := connected s
  if result && m.is_available.truthy then m.is_available.eval store product
  else result

/-!  Product catalog (`devices.py`) and setup/assembly. -/

/-- Embeds `devices.TuyaBLECategoryInfo`. -/
structure TuyaBLECategoryInfo where
  products : List (String × TuyaBLEProductInfo)
  info : Option TuyaBLEProductInfo := none

/-- Embeds the `devices.devices_database` table. -/
def devices_database : List (String × TuyaBLECategoryInfo) :=
  [ ("szjqr",
     { products :=
         [ ("xhf790if",
            { name := "CubeTouch II",
              fingerbot := some
                { switch := 1, mode := 2, up_position := 5,
                  down_position := 6, hold_time := 3,
                  reverse_positions := 4 } }) ] }),
    ("jtmspro",
     { products := [ ("rlyxv7pe", { name := "A1 PRO MAX" }) ] }) ]

/-- Embeds `devices.get_product_info_by_ids`. -/
def get_product_info_by_ids (category product_id : String) :
    Option TuyaBLEProductInfo :=
  match lookupStr devices_database category with
  | some category_info =>
    match lookupStr category_info.products product_id with
    | some product_info => some product_info
    | none => category_info.info
  | none => none

/-- Embeds `devices.TuyaBLEData`. -/
structure TuyaBLEData where
  title : String
  device : TuyaBLEDevice
  product : TuyaBLEProductInfo
  coordinator : CoordState

/-- Embeds `switch.TuyaBLESwitch` as the immutable bindings the
constructor takes. -/
structure TuyaBLESwitch where
  coordinator : CoordState
  device : TuyaBLEDevice
  product : TuyaBLEProductInfo
  mapping : TuyaBLESwitchMapping

/-- Embeds `button.TuyaBLEButton` as the immutable bindings the
constructor takes. -/
structure TuyaBLEButton where
  coordinator : CoordState
  device : TuyaBLEDevice
  product : TuyaBLEProductInfo
  mapping : TuyaBLEButtonMapping

/-- Embeds the entity-accumulating loop of `switch.async_setup_switches`. -/
def setupSwitchesLoop (data : TuyaBLEData) :
    List TuyaBLESwitchMapping → List TuyaBLESwitch
  | [] => []
  | m :: rest =>
    if m.force_add || dps_has_id data.device.datapoints m.dp_id m.dp_type then
      ⟨data.coordinator, data.device, data.product, m⟩ ::
        setupSwitchesLoop data rest
    else setupSwitchesLoop data rest

/-- Embeds `switch.async_setup_switches`. -/
def async_setup_switches (data : TuyaBLEData) : List TuyaBLESwitch :=
  setupSwitchesLoop data (get_switch_mapping_by_device data.device)

/-- Embeds the entity-accumulating loop of `button.async_setup_buttons`. -/
def setupButtonsLoop (data : TuyaBLEData) :
    List TuyaBLEButtonMapping → List TuyaBLEButton
  | [] => []
  | m :: rest =>
    if m.force_add || dps_has_id data.device.datapoints m.dp_id m.dp_type then
      ⟨data.coordinator, data.device, data.product, m⟩ ::
        setupButtonsLoop data rest
    else setupButtonsLoop data rest

/-- Embeds `button.async_setup_buttons`. -/
def async_setup_buttons (data : TuyaBLEData) : List TuyaBLEButton :=
  setupButtonsLoop data (get_button_mapping_by_device data.device)

/-!  Spec-side resolution rule, for the refinement comparison of C6. -/

/-- Resolution rule stated from the spec's words for the product
catalog: an exact `(category, product_id)` match wins; else the
category-level fallback; else not found. -/
def resolveProductInfoSpec (category product_id : String) :
    Option TuyaBLEProductInfo :=
  match lookupStr devices_database category with
  | some ci =>
    match lookupStr ci.products product_id with
    | some p => some p
    | none => ci.info
  | none => none

/-- Resolution rule stated from the spec's words for the switch mapping
table: an exact `(category, product_id)` match wins; else the
category-level fallback; else the empty list. -/
def resolveSwitchMappingSpec (category product_id : String) :
    List TuyaBLESwitchMapping :=
  match lookupStr switchMappingTable category with
  | some ci =>
    match ci.products.bind (fun ps => lookupStr ps product_id) with
    | some pm => pm
    | none => ci.mapping.getD []
  | none => []

/-- Resolution rule stated from the spec's words for the button mapping
table: an exact `(category, product_id)` match wins; else the
category-level fallback; else the empty list. -/
def resolveButtonMappingSpec (category product_id : String) :
    List TuyaBLEButtonMapping :=
  match lookupStr buttonMappingTable category with
  | some ci =>
    match ci.products.bind (fun ps => lookupStr ps product_id) with
    | some pm => pm
    | none => ci.mapping.getD []
  | none => []

/-!  Theorems. -/

/-- The coordinator state reached by the first connect callback is a
fixed point of every event, because no handler ever arms the debounce
alarm. -/
lemma coordStep_fixed (e : CoordEvent) :
    coordStep ⟨false, false, false⟩ e = ⟨false, false, false⟩ := by
  cases e <;> rfl

lemma coordRun_fixed (evs : List CoordEvent) :
    coordRun ⟨false, false, false⟩ evs = ⟨false, false, false⟩ := by
  induction evs with
  | nil => rfl
  | cons e es ih => rw [coordRun, coordStep_fixed]; exact ih

/-- C1: after the first connected callback, `connected` reports true at
every later observation point, whatever callbacks and alarm
opportunities follow — in particular a disconnected callback that is
never followed by a reconnect still never flips `connected` to false,
because `_async_handle_disconnect` never arms the `_set_disconnected`
alarm (the `async_call_later` call is commented out in the source). -/
theorem C1_coordinator_never_disconnects (evs : List CoordEvent) :
    connected (coordRun (coordStep coordInit .connect) evs) = true := by
  have h0 : coordStep coordInit .connect = ⟨false, false, false⟩ := rfl
  rw [h0, coordRun_fixed]
  rfl

/-- C7: for switches and buttons alike, `available` equals the
coordinator's `connected` conjoined with the mapping's availability
predicate when a truthy one is configured (else `true`); in particular
a disconnected coordinator forces `available = false` regardless of the
predicate. -/
theorem C7_available_gating (s : CoordState) (msw : TuyaBLESwitchMapping)
    (mbt : TuyaBLEButtonMapping) (product : TuyaBLEProductInfo)
    (store : Datapoints) :
    switch_available s msw product store =
      (connected s &&
        (match msw.is_available with
         | .pred f => f store product
         | _ => true)) ∧
    button_available s mbt product store =
      (connected s &&
        (match mbt.is_available with
         | .pred f => f store product
         | _ => true)) := by
  constructor
  · unfold switch_available
    cases hc : connected s <;> cases msw.is_available <;>
      simp [AvailField.truthy, AvailField.eval]
  · unfold button_available
    cases hc : connected s <;> cases mbt.is_available <;>
      simp [AvailField.truthy, AvailField.eval]

/-- C9: a button press fetch-or-creates the addressed datapoint as a
boolean with default `False` and issues a write of the negation of the
value read fresh from the store at press time; on an absent (hence
default-false) datapoint the pending write is `True`, and a second
press before any write is applied to the store again negates the
current store value, yielding `True` again. -/
theorem C9_press_toggles_fresh (m : TuyaBLEButtonMapping)
    (store : Datapoints) :
    (press m store =
      match dps_get store m.dp_id with
      | some dp => (store, some (m.dp_id, .pbool (!(pyTruthy dp.value))))
      | none =>
        (store ++ [⟨m.dp_id, .DT_BOOL, .pbool false⟩],
         some (m.dp_id, .pbool true))) ∧
    (press m ([] : Datapoints)).2 = some (m.dp_id, .pbool true) ∧
    (press m ((press m ([] : Datapoints)).1)).2 =
      some (m.dp_id, .pbool true) := by
  refine ⟨?_, ?_, ?_⟩
  · unfold press dps_get_or_create
    cases h : dps_get store m.dp_id <;> simp [h, pyTruthy]
  · rfl
  · simp [press, dps_get_or_create, dps_get, List.find?, pyTruthy]

/-- C10: when a getter predicate is configured, `is_on` returns its
result unmodified, and that result is the Python `bool | None`; the
fingerbot program-repeat getter yields `None` both when the program
datapoint is absent and when its value is not raw bytes, so `is_on`
then reads as neither true nor false. -/
theorem C10_getter_result_unmodified (m : TuyaBLESwitchMapping)
    (g : SwitchGetter) (product : TuyaBLEProductInfo) (store : Datapoints) :
    is_on { m with getter := some g } product store = .ok (g store product) ∧
    is_on
      { dp_id := 121, description_key := "program_repeat_forever",
        getter := some get_fingerbot_program_repeat_forever }
      { name := "Fingerbot",
        fingerbot := some
          { switch := 2, mode := 8, up_position := 5, down_position := 6,
            hold_time := 3, reverse_positions := 11, program := 121 } }
      ([] : Datapoints) = .ok none ∧
    is_on
      { dp_id := 121, description_key := "program_repeat_forever",
        getter := some get_fingerbot_program_repeat_forever }
      { name := "Fingerbot",
        fingerbot := some
          { switch := 2, mode := 8, up_position := 5, down_position := 6,
            hold_time := 3, reverse_positions := 11, program := 121 } }
      [⟨121, .DT_VALUE, .pint 5⟩] = .ok none := by
  refine ⟨?_, rfl, rfl⟩
  unfold is_on
  rfl

/-- C3 counterexample: on a switch with no setter and no bitmap mask
(the `lock_motor_state` mapping of the table) and an empty store,
`turn_on` fetch-or-creates the datapoint with default value `True` —
not `False` as the claim states: the creating call passes the target
boolean, so the datapoint springs into existence already on. -/
theorem C3_counterexample_turn_on_default_true :
    turn_on { dp_id := 47, description_key := "lock_motor_state" }
      { name := "Smart Lock" } ([] : Datapoints) =
      .ok ([⟨47, .DT_BOOL, .pbool true⟩], some (47, .pbool true)) ∧
    PyValue.pbool true ≠ PyValue.pbool false :=
  ⟨rfl, by decide⟩

/-- C3 (amended): with no setter and no truthy bitmap mask, `turn_on`
fetch-or-creates the addressed datapoint as a boolean with default
value `True` and `turn_off` with default value `False` — the default is
the literal target, not always false — and each then issues an
asynchronous write of the literal target boolean. -/
theorem C3_literal_bool_writes (m : TuyaBLESwitchMapping)
    (product : TuyaBLEProductInfo) (store : Datapoints)
    (hset : m.setter = none) (hmask : maskTruthy m.bitmap_mask = false) :
    turn_on m product store =
      .ok ((match dps_get store m.dp_id with
            | some _ => store
            | none => store ++ [⟨m.dp_id, .DT_BOOL, .pbool true⟩]),
           some (m.dp_id, .pbool true)) ∧
    turn_off m product store =
      .ok ((match dps_get store m.dp_id with
            | some _ => store
            | none => store ++ [⟨m.dp_id, .DT_BOOL, .pbool false⟩]),
           some (m.dp_id, .pbool false)) := by
  constructor
  · unfold turn_on dps_get_or_create
    rw [hset, hmask]
    cases h : dps_get store m.dp_id <;> simp
  · unfold turn_off dps_get_or_create
    rw [hset, hmask]
    cases h : dps_get store m.dp_id <;> simp

/-- Witness for C3: the amended statement at the `lock_motor_state`
mapping, an empty product and a store already holding the datapoint. -/
theorem C3_literal_bool_writes_witness :
    (TuyaBLESwitchMapping.setter
        { dp_id := 47, description_key := "lock_motor_state" } = none) ∧
    (maskTruthy (TuyaBLESwitchMapping.bitmap_mask
        { dp_id := 47, description_key := "lock_motor_state" }) = false) ∧
    (turn_on { dp_id := 47, description_key := "lock_motor_state" }
        { name := "Smart Lock" } [⟨47, .DT_BOOL, .pbool false⟩] =
      .ok ((match dps_get [⟨47, .DT_BOOL, .pbool false⟩] 47 with
            | some _ => [⟨47, .DT_BOOL, .pbool false⟩]
            | none => [⟨47, .DT_BOOL, .pbool false⟩] ++
                [⟨47, .DT_BOOL, .pbool true⟩]),
           some (47, .pbool true)) ∧
     turn_off { dp_id := 47, description_key := "lock_motor_state" }
        { name := "Smart Lock" } [⟨47, .DT_BOOL, .pbool false⟩] =
      .ok ((match dps_get [⟨47, .DT_BOOL, .pbool false⟩] 47 with
            | some _ => [⟨47, .DT_BOOL, .pbool false⟩]
            | none => [⟨47, .DT_BOOL, .pbool false⟩] ++
                [⟨47, .DT_BOOL, .pbool false⟩]),
           some (47, .pbool false))) :=
  ⟨rfl, rfl,
   C3_literal_bool_writes { dp_id := 47, description_key := "lock_motor_state" }
     { name := "Smart Lock" } [⟨47, .DT_BOOL, .pbool false⟩] rfl rfl⟩

/-- Looking up an id after a completed `set_value` on that id returns
the stored datapoint with only its value replaced. -/
lemma dps_get_apply_set_value (store : Datapoints) (id : Nat) (v : PyValue) :
    dps_get (apply_set_value store id v) id =
      (dps_get store id).map (fun dp => { dp with value := v }) := by
  induction store with
  | nil => rfl
  | cons dp rest ih =>
    cases hb : dp.id == id with
    | true => simp [apply_set_value, dps_get, List.find?, hb]
    | false =>
      simp only [apply_set_value, List.map, hb, Bool.false_eq_true, if_false]
      simp only [dps_get, List.find?, hb]
      simpa [dps_get, apply_set_value] using ih

/-- C5: on a fingerbot product with a configured (nonzero) program
datapoint id whose program datapoint holds raw bytes, setting
repeat-forever issues a write whose first two bytes are `0xFFFF`
big-endian and whose bytes from offset 2 onward are byte-for-byte the
bytes of the previous value from offset 2 onward; once that write
reaches the store, the getter reads the value back as `true`. -/
theorem C5_repeat_forever_roundtrip (product : TuyaBLEProductInfo)
    (fb : TuyaBLEFingerbotInfo) (store : Datapoints)
    (dp : TuyaBLEDataPoint) (bs : List Nat)
    (hfb : product.fingerbot = some fb) (hprog : fb.program ≠ 0)
    (hdp : dps_get store fb.program = some dp)
    (hval : dp.value = .pbytes bs) :
    set_fingerbot_program_repeat_forever store product true =
      some (fb.program, .pbytes (255 :: 255 :: bs.drop 2)) ∧
    ((255 : Nat) :: 255 :: bs.drop 2).take 2 = [255, 255] ∧
    intFromBytesBE (((255 : Nat) :: 255 :: bs.drop 2).take 2) = 0xFFFF ∧
    ((255 : Nat) :: 255 :: bs.drop 2).drop 2 = bs.drop 2 ∧
    get_fingerbot_program_repeat_forever
      (apply_set_value store fb.program (.pbytes (255 :: 255 :: bs.drop 2)))
      product = some true := by
  refine ⟨?_, rfl, rfl, by simp, ?_⟩
  · unfold set_fingerbot_program_repeat_forever
    rw [hfb]
    simp [hprog, hdp, hval, repeatCountBytes]
  · unfold get_fingerbot_program_repeat_forever
    rw [hfb]
    simp [hprog, dps_get_apply_set_value, hdp, intFromBytesBE]

/-- Witness for C5: a program datapoint id 9 holding raw bytes
`[0, 3, 10, 20]`. -/
theorem C5_repeat_forever_roundtrip_witness :
    (TuyaBLEProductInfo.fingerbot
        { name := "CubeTouch II",
          fingerbot := some
            { switch := 1, mode := 2, up_position := 5, down_position := 6,
              hold_time := 3, reverse_positions := 4, program := 9 } } =
      some
        { switch := 1, mode := 2, up_position := 5, down_position := 6,
          hold_time := 3, reverse_positions := 4, program := 9 }) ∧
    (9 : Nat) ≠ 0 ∧
    dps_get [⟨9, .DT_RAW, .pbytes [0, 3, 10, 20]⟩] 9 =
      some ⟨9, .DT_RAW, .pbytes [0, 3, 10, 20]⟩ ∧
    (set_fingerbot_program_repeat_forever
        [⟨9, .DT_RAW, .pbytes [0, 3, 10, 20]⟩]
        { name := "CubeTouch II",
          fingerbot := some
            { switch := 1, mode := 2, up_position := 5, down_position := 6,
              hold_time := 3, reverse_positions := 4, program := 9 } } true =
      some (9, .pbytes (255 :: 255 :: List.drop 2 [0, 3, 10, 20])) ∧
     ((255 : Nat) :: 255 :: List.drop 2 [0, 3, 10, 20]).take 2 = [255, 255] ∧
     intFromBytesBE (((255 : Nat) :: 255 ::
        List.drop 2 [0, 3, 10, 20]).take 2) = 0xFFFF ∧
     ((255 : Nat) :: 255 :: List.drop 2 [0, 3, 10, 20]).drop 2 =
        List.drop 2 [0, 3, 10, 20] ∧
     get_fingerbot_program_repeat_forever
        (apply_set_value [⟨9, .DT_RAW, .pbytes [0, 3, 10, 20]⟩] 9
          (.pbytes (255 :: 255 :: List.drop 2 [0, 3, 10, 20])))
        { name := "CubeTouch II",
          fingerbot := some
            { switch := 1, mode := 2, up_position := 5, down_position := 6,
              hold_time := 3, reverse_positions := 4, program := 9 } } =
      some true) :=
  ⟨rfl, by decide, rfl,
   C5_repeat_forever_roundtrip
     { name := "CubeTouch II",
       fingerbot := some
         { switch := 1, mode := 2, up_position := 5, down_position := 6,
           hold_time := 3, reverse_positions := 4, program := 9 } }
     { switch := 1, mode := 2, up_position := 5, down_position := 6,
       hold_time := 3, reverse_positions := 4, program := 9 }
     [⟨9, .DT_RAW, .pbytes [0, 3, 10, 20]⟩]
     ⟨9, .DT_RAW, .pbytes [0, 3, 10, 20]⟩
     [0, 3, 10, 20] rfl (by decide) rfl rfl⟩

/-- A successful association-list lookup returns one of the stored
values. -/
lemma lookupStr_mem {α : Type} (l : List (String × α)) (k : String) (v : α)
    (h : lookupStr l k = some v) : v ∈ l.map Prod.snd := by
  induction l with
  | nil => simp [lookupStr] at h
  | cons kv rest ih =>
    rw [lookupStr] at h
    by_cases hk : k == kv.1
    · simp only [hk, if_true] at h
      cases h
      simp
    · simp only [hk, Bool.false_eq_true, if_false] at h
      simp [ih h]

/-- Every category entry of the switch mapping table has a `products`
dict and no category-level `mapping` fallback. -/
lemma switchMappingTable_shape (c : String)
    (ci : TuyaBLECategorySwitchMapping)
    (h : lookupStr switchMappingTable c = some ci) :
    ci.products.isSome ∧ ci.mapping = none := by
  have hmem := lookupStr_mem _ _ _ h
  simp only [switchMappingTable, List.map, List.mem_cons,
    List.not_mem_nil, or_false] at hmem
  rcases hmem with rfl | rfl | rfl <;> exact ⟨rfl, rfl⟩

/-- Every category entry of the button mapping table has a `products`
dict and no category-level `mapping` fallback. -/
lemma buttonMappingTable_shape (c : String)
    (ci : TuyaBLECategoryButtonMapping)
    (h : lookupStr buttonMappingTable c = some ci) :
    ci.products.isSome ∧ ci.mapping = none := by
  have hmem := lookupStr_mem _ _ _ h
  simp only [buttonMappingTable, List.map, List.mem_cons,
    List.not_mem_nil, or_false] at hmem
  rcases hmem with rfl
  exact ⟨rfl, rfl⟩

/-- C6: for every `(category, product_id)` pair, product-catalog and
mapping-table resolution follow the override rule stated by the spec:
exact match wins, else the category-level fallback, else the documented
default (`none` for product info, `[]` for mapping lists); all three
resolvers are total functions, so no input raises. -/
theorem C6_resolution_override_rule (device : TuyaBLEDevice) :
    get_product_info_by_ids device.category device.product_id =
      resolveProductInfoSpec device.category device.product_id ∧
    get_switch_mapping_by_device device =
      resolveSwitchMappingSpec device.category device.product_id ∧
    get_button_mapping_by_device device =
      resolveButtonMappingSpec device.category device.product_id := by
  refine ⟨rfl, ?_, ?_⟩
  · unfold get_switch_mapping_by_device resolveSwitchMappingSpec
    cases h : lookupStr switchMappingTable device.category with
    | none => rfl
    | some ci =>
      obtain ⟨hp, hm⟩ := switchMappingTable_shape _ _ h
      cases hps : ci.products with
      | none => rw [hps] at hp; cases hp
      | some ps =>
        simp only [hps, hm, Option.bind]
        cases hq : lookupStr ps device.product_id <;> simp [hq]
  · unfold get_button_mapping_by_device resolveButtonMappingSpec
    cases h : lookupStr buttonMappingTable device.category with
    | none => rfl
    | some ci =>
      obtain ⟨hp, hm⟩ := buttonMappingTable_shape _ _ h
      cases hps : ci.products with
      | none => rw [hps] at hp; cases hp
      | some ps =>
        simp only [hps, hm, Option.bind]
        cases hq : lookupStr ps device.product_id <;> simp [hq]

/-- The switch setup loop is the filter of the mapping list by
`force_add or has_id`, mapped to entity construction. -/
lemma setupSwitchesLoop_eq_filter_map (data : TuyaBLEData)
    (ms : List TuyaBLESwitchMapping) :
    setupSwitchesLoop data ms =
      (ms.filter (fun m => m.force_add ||
        dps_has_id data.device.datapoints m.dp_id m.dp_type)).map
        (fun m => ⟨data.coordinator, data.device, data.product, m⟩) := by
  induction ms with
  | nil => rfl
  | cons m rest ih =>
    cases h : (m.force_add ||
        dps_has_id data.device.datapoints m.dp_id m.dp_type) <;>
      simp [setupSwitchesLoop, List.filter, h, ih]

/-- The button setup loop is the filter of the mapping list by
`force_add or has_id`, mapped to entity construction. -/
lemma setupButtonsLoop_eq_filter_map (data : TuyaBLEData)
    (ms : List TuyaBLEButtonMapping) :
    setupButtonsLoop data ms =
      (ms.filter (fun m => m.force_add ||
        dps_has_id data.device.datapoints m.dp_id m.dp_type)).map
        (fun m => ⟨data.coordinator, data.device, data.product, m⟩) := by
  induction ms with
  | nil => rfl
  | cons m rest ih =>
    cases h : (m.force_add ||
        dps_has_id data.device.datapoints m.dp_id m.dp_type) <;>
      simp [setupButtonsLoop, List.filter, h, ih]

/-- C8: setup instantiates a surface for a resolved mapping entry
exactly when `force_add` is true or the store reports a datapoint of
the mapping's id and type — a `force_add = false` mapping whose
datapoint is absent is dropped, a `force_add = true` mapping is always
kept — and the output preserves the mapping-list order, being the
order-preserving filter of the resolved list mapped to construction. -/
theorem C8_setup_filters_by_force_add_or_presence (data : TuyaBLEData) :
    async_setup_switches data =
      ((get_switch_mapping_by_device data.device).filter
        (fun m => m.force_add ||
          dps_has_id data.device.datapoints m.dp_id m.dp_type)).map
        (fun m => ⟨data.coordinator, data.device, data.product, m⟩) ∧
    async_setup_buttons data =
      ((get_button_mapping_by_device data.device).filter
        (fun m => m.force_add ||
          dps_has_id data.device.datapoints m.dp_id m.dp_type)).map
        (fun m => ⟨data.coordinator, data.device, data.product, m⟩) :=
  ⟨setupSwitchesLoop_eq_filter_map data _,
   setupButtonsLoop_eq_filter_map data _⟩

/-- A strict zip over lists of different lengths raises, whatever the
combining function. -/
lemma zipWithStrict_of_length_ne (f : Nat → Nat → Nat) (a b : List Nat)
    (h : a.length ≠ b.length) : zipWithStrict f a b = .error () := by
  induction a generalizing b with
  | nil =>
    cases b with
    | nil => simp at h
    | cons y ys => rfl
  | cons x xs ih =>
    cases b with
    | nil => rfl
    | cons y ys =>
      rw [zipWithStrict, ih ys (by simpa using h)]

/-- A strict zip over lists of equal length returns the pairwise image. -/
lemma zipWithStrict_of_length_eq (f : Nat → Nat → Nat) (a b : List Nat)
    (h : a.length = b.length) :
    zipWithStrict f a b = .ok (List.zipWith f a b) := by
  induction a generalizing b with
  | nil =>
    cases b with
    | nil => rfl
    | cons y ys => simp at h
  | cons x xs ih =>
    cases b with
    | nil => simp at h
    | cons y ys =>
      rw [zipWithStrict, ih ys (by simpa using h)]
      rfl

/-- On lists of different lengths, the masked-byte scan returns true
when some pair in the common prefix matches and otherwise raises. -/
lemma bitmapAnyMasked_of_length_ne (a b : List Nat)
    (h : a.length ≠ b.length) :
    bitmapAnyMasked a b =
      (if (List.zipWith (fun v mm => v &&& mm) a b).any (fun x => x != 0)
       then .ok true else .error ()) := by
  induction a generalizing b with
  | nil =>
    cases b with
    | nil => simp at h
    | cons y ys => rfl
  | cons x xs ih =>
    cases b with
    | nil => rfl
    | cons y ys =>
      rw [bitmapAnyMasked]
      by_cases hx : (x &&& y != 0) = true
      · simp [hx]
      · simp only [Bool.not_eq_true] at hx
        simp [hx, ih ys (by simpa using h)]

/-- C2 counterexample: a switch with bitmap mask `[0]` over a raw
datapoint value `[0, 2]` (lengths 1 and 2): `is_on` raises `ValueError`
from the strict zip instead of returning false, and `turn_on` /
`turn_off` raise instead of degrading to a no-op. -/
theorem C2_counterexample_mismatch_raises :
    is_on { dp_id := 1, description_key := "x", bitmap_mask := some [0] }
      { name := "p" } [⟨1, .DT_RAW, .pbytes [0, 2]⟩] = .error () ∧
    turn_on { dp_id := 1, description_key := "x", bitmap_mask := some [0] }
      { name := "p" } [⟨1, .DT_RAW, .pbytes [0, 2]⟩] = .error () ∧
    turn_off { dp_id := 1, description_key := "x", bitmap_mask := some [0] }
      { name := "p" } [⟨1, .DT_RAW, .pbytes [0, 2]⟩] = .error () ∧
    Except.error () ≠ (.ok (some false) : Except Unit (Option Bool)) :=
  ⟨rfl, rfl, rfl, by simp⟩

/-- C2 (amended): on a raw/bitmap datapoint whose byte value and
configured mask have different lengths, `is_on` scans only the common
prefix of the strict zip: it returns true if some prefix byte has a
nonzero `value & mask` and otherwise raises `ValueError` (it never
returns false); the mask operations of `turn_on` and `turn_off` always
raise `ValueError` on a length mismatch and issue no write. -/
theorem C2_length_mismatch_raises (m : TuyaBLESwitchMapping)
    (product : TuyaBLEProductInfo) (store : Datapoints)
    (dp : TuyaBLEDataPoint) (bs ms : List Nat)
    (hget : m.getter = none) (hset : m.setter = none)
    (hmask : m.bitmap_mask = some ms) (hms : ms ≠ [])
    (hdp : dps_get store m.dp_id = some dp)
    (htype : dp.type = .DT_RAW ∨ dp.type = .DT_BITMAP)
    (hval : dp.value = .pbytes bs)
    (hlen : bs.length ≠ ms.length) :
    is_on m product store =
      (if (List.zipWith (fun v mm => v &&& mm) bs ms).any (fun x => x != 0)
       then .ok (some true) else .error ()) ∧
    turn_on m product store = .error () ∧
    turn_off m product store = .error () := by
  have hmt : maskTruthy (some ms) = true := by
    cases ms with
    | nil => exact absurd rfl hms
    | cons a as => rfl
  have hty : (dp.type == TuyaBLEDataPointType.DT_RAW ||
      dp.type == TuyaBLEDataPointType.DT_BITMAP) = true := by
    rcases htype with h | h <;> simp [h]
  refine ⟨?_, ?_, ?_⟩
  · simp only [is_on, hget, hdp, hty, hmask, hmt, Bool.and_self, if_true,
      hval, pyBytes, Option.getD]
    rw [bitmapAnyMasked_of_length_ne _ _ hlen]
    cases hc : (List.zipWith (fun v mm => v &&& mm) bs ms).any
        (fun x => x != 0) <;>
      simp [hc, hmt]
  · simp only [turn_on, hset, hmask, Option.getD, dps_get_or_create,
      hdp, hval, pyBytes]
    rw [zipWithStrict_of_length_ne _ _ _ hlen]
    simp [hmt]
  · simp only [turn_off, hset, hmask, Option.getD, dps_get_or_create,
      hdp, hval, pyBytes]
    rw [zipWithStrict_of_length_ne _ _ _ hlen]
    simp [hmt]

/-- Witness for C2: the amended statement at value `[0, 2]` and mask
`[0]`, where the common prefix has no hit and all three operations
raise. -/
theorem C2_length_mismatch_raises_witness :
    (TuyaBLESwitchMapping.getter
      { dp_id := 1, description_key := "x", bitmap_mask := some [0] } =
        none) ∧
    ([0] : List Nat) ≠ [] ∧
    dps_get [⟨1, .DT_RAW, .pbytes [0, 2]⟩] 1 =
      some ⟨1, .DT_RAW, .pbytes [0, 2]⟩ ∧
    ([0, 2] : List Nat).length ≠ ([0] : List Nat).length ∧
    (is_on { dp_id := 1, description_key := "x", bitmap_mask := some [0] }
        { name := "p" } [⟨1, .DT_RAW, .pbytes [0, 2]⟩] =
      (if (List.zipWith (fun v mm => v &&& mm) [0, 2] [0]).any
          (fun x => x != 0)
       then .ok (some true) else .error ()) ∧
     turn_on { dp_id := 1, description_key := "x", bitmap_mask := some [0] }
        { name := "p" } [⟨1, .DT_RAW, .pbytes [0, 2]⟩] = .error () ∧
     turn_off { dp_id := 1, description_key := "x", bitmap_mask := some [0] }
        { name := "p" } [⟨1, .DT_RAW, .pbytes [0, 2]⟩] = .error ()) :=
  ⟨rfl, by decide, rfl, by decide,
   C2_length_mismatch_raises
     { dp_id := 1, description_key := "x", bitmap_mask := some [0] }
     { name := "p" } [⟨1, .DT_RAW, .pbytes [0, 2]⟩]
     ⟨1, .DT_RAW, .pbytes [0, 2]⟩ [0, 2] [0]
     rfl rfl rfl (by decide) rfl (Or.inl rfl) rfl (by decide)⟩

/-- Indexing a zipWith of equal-length lists with default 0, for a
combining function fixing (0, 0). -/
lemma getD_zipWith_eq (f : Nat → Nat → Nat) (a b : List Nat) (i : Nat)
    (hlen : a.length = b.length) (h0 : f 0 0 = 0) :
    (List.zipWith f a b).getD i 0 = f (a.getD i 0) (b.getD i 0) := by
  induction a generalizing b i with
  | nil =>
    cases b with
    | nil => simp [h0]
    | cons y ys => simp at hlen
  | cons x xs ih =>
    cases b with
    | nil => simp at hlen
    | cons y ys =>
      cases i with
      | zero => simp
      | succ n => simpa using ih ys n (by simpa using hlen)

/-- C4: on a switch with a bitmap mask and a current raw value of the
same length, `turn_on` issues a write of the bytewise `value | mask`
(each masked bit set, every unmasked bit unchanged), `turn_off` issues
a write of the bytewise `value & ~mask` (each masked bit cleared, every
unmasked bit unchanged), and `turn_on` followed — after its write
reaches the store — by `turn_off` produces a value agreeing with the
original on every bit outside the mask and clearing exactly the masked
bits. -/
theorem C4_bitmap_mask_algebra (m : TuyaBLESwitchMapping)
    (product : TuyaBLEProductInfo) (store : Datapoints)
    (dp : TuyaBLEDataPoint) (bs ms : List Nat)
    (hset : m.setter = none) (hmask : m.bitmap_mask = some ms)
    (hms : ms ≠ []) (hdp : dps_get store m.dp_id = some dp)
    (hval : dp.value = .pbytes bs) (hlen : bs.length = ms.length) :
    turn_on m product store =
      .ok (store, some (m.dp_id,
        .pbytes (List.zipWith (fun v mm => v ||| mm) bs ms))) ∧
    turn_off m product store =
      .ok (store, some (m.dp_id,
        .pbytes (List.zipWith (fun v mm => pyAndNot v mm) bs ms))) ∧
    (∀ i j,
      ((ms.getD i 0).testBit j = true →
        ((List.zipWith (fun v mm => v ||| mm) bs ms).getD i 0).testBit j =
          true) ∧
      ((ms.getD i 0).testBit j = false →
        ((List.zipWith (fun v mm => v ||| mm) bs ms).getD i 0).testBit j =
          (bs.getD i 0).testBit j)) ∧
    (∀ i j,
      ((ms.getD i 0).testBit j = true →
        ((List.zipWith (fun v mm => pyAndNot v mm) bs ms).getD i 0).testBit
          j = false) ∧
      ((ms.getD i 0).testBit j = false →
        ((List.zipWith (fun v mm => pyAndNot v mm) bs ms).getD i 0).testBit
          j = (bs.getD i 0).testBit j)) ∧
    turn_off m product (apply_set_value store m.dp_id
        (.pbytes (List.zipWith (fun v mm => v ||| mm) bs ms))) =
      .ok (apply_set_value store m.dp_id
          (.pbytes (List.zipWith (fun v mm => v ||| mm) bs ms)),
        some (m.dp_id, .pbytes (List.zipWith (fun v mm => pyAndNot v mm)
          (List.zipWith (fun v mm => v ||| mm) bs ms) ms))) ∧
    (∀ i j,
      ((ms.getD i 0).testBit j = false →
        ((List.zipWith (fun v mm => pyAndNot v mm)
          (List.zipWith (fun v mm => v ||| mm) bs ms) ms).getD i 0).testBit
          j = (bs.getD i 0).testBit j) ∧
      ((ms.getD i 0).testBit j = true →
        ((List.zipWith (fun v mm => pyAndNot v mm)
          (List.zipWith (fun v mm => v ||| mm) bs ms) ms).getD i 0).testBit
          j = false)) := by
  have hmt : maskTruthy (some ms) = true := by
    cases ms with
    | nil => exact absurd rfl hms
    | cons a as => rfl
  have hw1len :
      (List.zipWith (fun v mm => v ||| mm) bs ms).length = ms.length := by
    simp [hlen]
  have h00 : (fun v mm => pyAndNot v mm) 0 0 = 0 := by
    show pyAndNot 0 0 = 0
    apply Nat.eq_of_testBit_eq
    intro k
    simp [pyAndNot, Nat.testBit_ldiff]
  refine ⟨?_, ?_, ?_, ?_, ?_, ?_⟩
  · simp only [turn_on, hset, hmask, Option.getD, dps_get_or_create,
      hdp, hval, pyBytes]
    rw [zipWithStrict_of_length_eq _ _ _ hlen]
    simp [hmt]
  · simp only [turn_off, hset, hmask, Option.getD, dps_get_or_create,
      hdp, hval, pyBytes]
    rw [zipWithStrict_of_length_eq _ _ _ hlen]
    simp [hmt]
  · intro i j
    rw [getD_zipWith_eq (fun v mm => v ||| mm) bs ms i hlen (by simp)]
    constructor
    · intro h
      simp only [Nat.testBit_lor]
      rw [h]
      simp
    · intro h
      simp only [Nat.testBit_lor]
      rw [h]
      simp
  · intro i j
    rw [getD_zipWith_eq (fun v mm => pyAndNot v mm) bs ms i hlen h00]
    constructor
    · intro h
      simp only [pyAndNot, Nat.testBit_ldiff]
      rw [h]
      simp
    · intro h
      simp only [pyAndNot, Nat.testBit_ldiff]
      rw [h]
      simp
  · have hget2 : dps_get (apply_set_value store m.dp_id
        (.pbytes (List.zipWith (fun v mm => v ||| mm) bs ms))) m.dp_id =
        some { dp with value :=
          PyValue.pbytes (List.zipWith (fun v mm => v ||| mm) bs ms) } := by
      rw [dps_get_apply_set_value, hdp]
      rfl
    simp only [turn_off, hset, hmask, Option.getD, dps_get_or_create,
      hget2, pyBytes]
    rw [zipWithStrict_of_length_eq _ _ _ hw1len]
    simp [hmt]
  · intro i j
    rw [getD_zipWith_eq (fun v mm => pyAndNot v mm)
        (List.zipWith (fun v mm => v ||| mm) bs ms) ms i hw1len h00,
      getD_zipWith_eq (fun v mm => v ||| mm) bs ms i hlen (by simp)]
    constructor
    · intro h
      simp only [pyAndNot, Nat.testBit_ldiff, Nat.testBit_lor]
      rw [h]
      simp
    · intro h
      simp only [pyAndNot, Nat.testBit_ldiff, Nat.testBit_lor]
      rw [h]
      simp

/-- Witness for C4: mask `[3, 12]` over stored raw value `[5, 7]`. -/
theorem C4_bitmap_mask_algebra_witness :
    ([5, 7] : List Nat).length = ([3, 12] : List Nat).length ∧
    dps_get [⟨1, .DT_RAW, .pbytes [5, 7]⟩] 1 =
      some ⟨1, .DT_RAW, .pbytes [5, 7]⟩ ∧
    turn_on { dp_id := 1, description_key := "x", bitmap_mask := some [3, 12] }
      { name := "p" } [⟨1, .DT_RAW, .pbytes [5, 7]⟩] =
      .ok ([⟨1, .DT_RAW, .pbytes [5, 7]⟩], some (1,
        .pbytes (List.zipWith (fun v mm => v ||| mm) [5, 7] [3, 12]))) ∧
    turn_off { dp_id := 1, description_key := "x", bitmap_mask := some [3, 12] }
      { name := "p" } [⟨1, .DT_RAW, .pbytes [5, 7]⟩] =
      .ok ([⟨1, .DT_RAW, .pbytes [5, 7]⟩], some (1,
        .pbytes (List.zipWith (fun v mm => pyAndNot v mm) [5, 7] [3, 12]))) :=
  ⟨rfl, rfl,
   (C4_bitmap_mask_algebra
     { dp_id := 1, description_key := "x", bitmap_mask := some [3, 12] }
     { name := "p" } [⟨1, .DT_RAW, .pbytes [5, 7]⟩]
     ⟨1, .DT_RAW, .pbytes [5, 7]⟩ [5, 7] [3, 12]
     rfl rfl (by simp) rfl rfl rfl).1,
   (C4_bitmap_mask_algebra
     { dp_id := 1, description_key := "x", bitmap_mask := some [3, 12] }
     { name := "p" } [⟨1, .DT_RAW, .pbytes [5, 7]⟩]
     ⟨1, .DT_RAW, .pbytes [5, 7]⟩ [5, 7] [3, 12]
     rfl rfl (by simp) rfl rfl rfl).2.1⟩

end TuyaBLE
